import Mathlib

/-!
Shallow embedding of the nearest-point geospatial engine of `src/app.py`
(a streamlit page that ingests CSV sources from a GitHub repository,
builds one pandas table, and reports the indexed point nearest to the
user's GPS position), together with proofs about the spec's claims.

Correspondence to the source:
* `RawValue`, `Row`, `RawTable` — a pandas DataFrame as read by
  `pd.read_csv`: a list of rows, each an association list from column
  name to cell value.  A cell that `pd.to_numeric(errors='coerce')`
  would turn into a float is modelled as `RawValue.num`; genuinely
  non-numeric text is `RawValue.str`; NaN / absent is `RawValue.missing`.
* `processTable` — lines 79-81: coerce the `Lat` and `Lon` columns and
  drop the rows where either is NaN; `none` models the `KeyError`
  raised when a coordinate column is absent.
* `ingestFrames` — the per-file loop of lines 71-84 with its
  try/except: each failing source yields a `Warning` and no frame.
* `masterRows` — line 87, `pd.concat(all_data_frames, ignore_index=True)`.
* `radians`, `hav_a`, `atan2`, `calculate_distance` — lines 38-45.
* `idxmin`, `runNearest` — lines 120-123: the `distance_to_user`
  column assignment followed by `idxmin`/`loc`.
* `appQuery` — the guard `if all_data_frames:` of line 86 combined
  with the query of lines 120-123, for a session where the browser
  supplied a GPS position.
* `searchGithub`, `get_csv_files_from_github` — lines 16-35; the
  `st.error` emissions are modelled as the `UiError` component of the
  result, and the `requests` call as an explicit collaborator argument.
-/

/-- One cell of a CSV table: a value `pd.to_numeric` can coerce (`num`),
non-numeric text that coerces to NaN (`str`), or a missing/NaN cell. -/
inductive RawValue where
  | num (q : ℚ)
  | str (s : String)
  | missing
deriving DecidableEq, Repr

/-- One row of a pandas DataFrame: column name to cell value. -/
abbrev Row := List (String × RawValue)

/-- A pandas DataFrame: its column names and its rows. -/
structure RawTable where
  cols : List String
  rows : List Row
deriving DecidableEq, Repr

/-- pd.to_numeric(value, errors='coerce') on one cell: numeric values
pass through, everything else becomes NaN (`none`). -/
def RawValue.toNum : RawValue → Option ℚ
  | .num q => some q
  | .str _ => none
  | .missing => none

/-- The cell after `pd.to_numeric(errors='coerce')`: the coerced number,
or NaN. -/
def coerceCell (v : RawValue) : RawValue :=
  match v.toNum with
  | some q => .num q
  | none => .missing

/-- df[c] = pd.to_numeric(df[c], errors='coerce'): coerce one named
column of a row, leaving every other column untouched. -/
def coerceCol (c : String) (r : Row) : Row :=
  r.map fun p => if p.1 = c then (p.1, coerceCell p.2) else p

/-- Read the named cell of a row (as pandas row[c] does). -/
def cell (r : Row) (c : String) : RawValue := (r.lookup c).getD .missing

/-- Whether a cell holds a (non-NaN) number — the complement of what
`df.dropna` removes. -/
def isNum : RawValue → Bool
  | .num _ => true
  | _ => false

/-- Lines 79-81 inside the try-block: coerce `Lat` then `Lon`, then
`dropna(subset=['Lat','Lon'])`.  Returns `none` when the table lacks a
`Lat` or `Lon` column, modelling the `KeyError` that the surrounding
`except` catches. -/
def processTable (t : RawTable) : Option (List Row) :=
  if "Lat" ∈ t.cols ∧ "Lon" ∈ t.cols then
    some ((t.rows.map fun r => coerceCol "Lon" (coerceCol "Lat" r)).filter
      fun r => isNum (cell r "Lat") && isNum (cell r "Lon"))
  else none

/-- An `st.warning` emitted by the ingestion loop for a failing source. -/
inductive Warning where
  | sourceFailed (source : String) (cause : String)
deriving DecidableEq, Repr

/-- One named source and the outcome of reading it: a parsed table, or
the exception message raised by `pd.read_csv`. -/
abbrev Source := String × Except String RawTable

/-- The per-file ingestion loop (lines 71-84): every source that reads
and processes cleanly contributes one frame to `all_data_frames`; a
source whose read or processing raises is caught by the `except` and
contributes only a warning. -/
def ingestFrames : List Source → List (List Row) × List Warning
  | [] => ([], [])
  | (name, src) :: rest =>
    let acc := ingestFrames rest
    match src with
    | .error e => (acc.1, .sourceFailed name e :: acc.2)
    | .ok t =>
      match processTable t with
      | none => (acc.1, .sourceFailed name "KeyError: missing coordinate column" :: acc.2)
      | some rs => (rs :: acc.1, acc.2)

/-- Line 87: `master_data = pd.concat(all_data_frames, ignore_index=True)`. -/
def masterRows (srcs : List Source) : List Row := (ingestFrames srcs).1.flatten

/-- Line 40: `math.radians`, degrees to radians. -/
noncomputable def radians (x : ℝ) : ℝ := x * Real.pi / 180

/-- Line 43: the haversine intermediate
`a = sin²(Δφ/2) + cos φ1 · cos φ2 · sin²(Δλ/2)` with
`Δφ = radians(lat2 - lat1)` and `Δλ = radians(lon2 - lon1)`. -/
noncomputable def hav_a (lat1 lon1 lat2 lon2 : ℝ) : ℝ :=
  Real.sin (radians (lat2 - lat1) / 2) ^ 2 +
    Real.cos (radians lat1) * Real.cos (radians lat2) *
      Real.sin (radians (lon2 - lon1) / 2) ^ 2

/-- math.atan2, by its standard piecewise definition over the four
quadrants and the axes. -/
noncomputable def atan2 (y x : ℝ) : ℝ :=
  if 0 < x then Real.arctan (y / x)
  else if x = 0 ∧ 0 < y then Real.pi / 2
  else if x = 0 ∧ y < 0 then -(Real.pi / 2)
  else if x = 0 ∧ y = 0 then 0
  else if 0 ≤ y then Real.arctan (y / x) + Real.pi
  else Real.arctan (y / x) - Real.pi

/-- Lines 38-45, `calculate_distance`: haversine distance in metres,
`R·c` with `R = 6371e3` and `c = 2·atan2(√a, √(1−a))`. -/
noncomputable def calculate_distance (lat1 lon1 lat2 lon2 : ℝ) : ℝ :=
  6371e3 * (2 * atan2 (Real.sqrt (hav_a lat1 lon1 lat2 lon2))
    (Real.sqrt (1 - hav_a lat1 lon1 lat2 lon2)))

/-- pandas Series.idxmin helper: position and value of the minimum,
first occurrence winning. -/
def idxminAux {α : Type} [LinearOrder α] : List α → Option (Nat × α)
  | [] => none
  | x :: xs =>
    match idxminAux xs with
    | none => some (0, x)
    | some (j, m) => if x ≤ m then some (0, x) else some (j + 1, m)

/-- pandas Series.idxmin (line 123): the position of the first minimum
of the series, or nothing for an empty series (where pandas raises
"attempt to get argmin of an empty sequence"). -/
def idxmin {α : Type} [LinearOrder α] (l : List α) : Option Nat :=
  (idxminAux l).map fun p => p.1

/-- The master table as the query code sees it: the ingested rows plus
the `distance_to_user` column, which exists only once a query has run
(pandas stores a DataFrame column-wise). -/
structure MasterFrame where
  rows : List Row
  distCol : Option (List ℝ)

/-- row['Lat'] as the float pandas stores after coercion (rows reaching
the query have numeric coordinates, so the fallback 0 is never read). -/
def rowLat (r : Row) : ℝ :=
  match cell r "Lat" with
  | .num q => (q : ℝ)
  | _ => 0

/-- row['Lon'] as the float pandas stores after coercion. -/
def rowLon (r : Row) : ℝ :=
  match cell r "Lon" with
  | .num q => (q : ℝ)
  | _ => 0

/-- Line 121: the per-row lambda
`calculate_distance(user_lat, user_lon, row['Lat'], row['Lon'])`. -/
noncomputable def rowDist (userLat userLon : ℝ) (r : Row) : ℝ :=
  calculate_distance userLat userLon (rowLat r) (rowLon r)

/-- Lines 120-123: assign the `distance_to_user` column to the master
table (a mutation of `master_data`), then select the row at
`idxmin` of that column.  The second component is the selected row and
its distance; it is `none` exactly when `idxmin` is evaluated on an
empty series, where the real code raises an uncaught `ValueError`. -/
noncomputable def runNearest (m : MasterFrame) (userLat userLon : ℝ) :
    MasterFrame × Option (Row × ℝ) :=
  (⟨m.rows, some (m.rows.map (rowDist userLat userLon))⟩,
   match idxmin (m.rows.map (rowDist userLat userLon)) with
   | none => none
   | some i =>
       some (m.rows.getD i [], (m.rows.map (rowDist userLat userLon)).getD i 0))

/-- Observable outcome of the query section of the page for one GPS
position. -/
inductive QueryOutcome where
  | noData
  | crashed
  | result (r : Row) (d : ℝ)

/-- The page's query path for a session whose browser supplied a GPS
position: the `if all_data_frames:` guard of line 86 (no data loaded at
all means the whole block, queries included, is skipped), then the
nearest-point computation of lines 120-123.  `crashed` is the uncaught
`ValueError` that `idxmin` raises on an empty master table. -/
noncomputable def appQuery (srcs : List Source) (userLat userLon : ℝ) :
    QueryOutcome :=
  if (ingestFrames srcs).1 = [] then .noData
  else
    match (runNearest ⟨(ingestFrames srcs).1.flatten, none⟩ userLat userLon).2 with
    | none => .crashed
    | some (r, d) => .result r d

/-- The reply of the GitHub contents API (the `requests` collaborator):
the list of file names in the `data` folder, or a
`requests.exceptions.RequestException` message (raised by the call or
by `raise_for_status`). -/
inductive NetResponse where
  | ok (names : List String)
  | err (msg : String)

/-- An `st.error` emitted by `get_csv_files_from_github`. -/
inductive UiError where
  | invalidOriginReference
  | apiFailure (msg : String)
deriving DecidableEq

/-- One attempt of the regex `github\.com/([^/]+)/([^/]+)` at a fixed
position of the subject string. -/
def matchAt (l : List Char) : Option (String × String) :=
  let pre := "github.com/".toList
  if l.take pre.length = pre then
    let rest := l.drop pre.length
    let owner := rest.takeWhile fun c => c ≠ '/'
    match rest.drop owner.length with
    | '/' :: rest2 =>
      let repo := rest2.takeWhile fun c => c ≠ '/'
      if owner ≠ [] ∧ repo ≠ [] then some (owner.asString, repo.asString)
      else none
    | _ => none
  else none

/-- Helper for `searchGithub`: try the match at every position, left to
right. -/
def searchGithubAux : List Char → Option (String × String)
  | [] => none
  | c :: rest =>
    match matchAt (c :: rest) with
    | some p => some p
    | none => searchGithubAux rest

/-- Line 18: `re.search(r"github\.com/([^/]+)/([^/]+)", repo_url)`,
returning the two captured groups of the first match. -/
def searchGithub (s : String) : Option (String × String) :=
  searchGithubAux s.toList

/-- file['name'].endswith('.csv') (line 31). -/
def endsWithCsv (s : String) : Bool :=
  s.toList.reverse.take 4 = ['v', 's', 'c', '.']

/-- Lines 16-35, `get_csv_files_from_github`: reject a URL the regex
does not match (with an `st.error`, modelled as the `UiError`
component), otherwise ask the contents API for the `data` folder and
keep the `.csv` names; an API failure is caught and reported as a
different `st.error`.  In every failure case the returned list is
empty. -/
def get_csv_files_from_github (repo_url : String)
    (fetch : String → String → NetResponse) : List String × Option UiError :=
  match searchGithub repo_url with
  | none => ([], some .invalidOriginReference)
  | some (owner, repo) =>
    match fetch owner repo with
    | .err e => ([], some (.apiFailure e))
    | .ok names => (names.filter endsWithCsv, none)

/-- A one-row table whose `Lat` cell holds non-numeric text, as in the
spec's `Lat="not_a_number"` scenario. -/
def tableBadLat : RawTable :=
  ⟨["Lat", "Lon"],
   [[("Lat", RawValue.str "not_a_number"), ("Lon", RawValue.num 139)]]⟩

/-- A one-row table whose `Lat` is the numeric but out-of-range 200. -/
def tableLat200 : RawTable :=
  ⟨["Lat", "Lon"], [[("Lat", RawValue.num 200), ("Lon", RawValue.num 0)]]⟩

/-- A small table of valid rows with an extra attribute column. -/
def tableValid : RawTable :=
  ⟨["Lat", "Lon", "Line"],
   [[("Lat", RawValue.num 35), ("Lon", RawValue.num 139),
     ("Line", RawValue.str "A")],
    [("Lat", RawValue.num 36), ("Lon", RawValue.num 140),
     ("Line", RawValue.str "B")]]⟩

/-- Sources whose one table parses but yields zero valid rows: the
ingestion loop still appends an (empty) frame. -/
def srcsEmptyFrame : List Source := [("a.csv", Except.ok tableBadLat)]

/-- Sources that all fail to read: no frame is appended at all. -/
def srcsAllFailed : List Source :=
  [("a.csv", Except.error "HTTP 404"), ("b.csv", Except.error "HTTP 404")]

/-- A master table of one valid row that has not been queried yet. -/
def frame0 : MasterFrame :=
  ⟨[[("Lat", RawValue.num 35), ("Lon", RawValue.num 139)]], none⟩

theorem idxminAux_eq_none {α : Type} [LinearOrder α] (l : List α) :
    idxminAux l = none ↔ l = [] := by
  cases l with
  | nil => simp [idxminAux]
  | cons x xs =>
    simp only [idxminAux]
    cases h : idxminAux xs with
    | none => simp
    | some p =>
      obtain ⟨j, m⟩ := p
      by_cases hx : x ≤ m <;> simp [hx]

theorem idxminAux_spec {α : Type} [LinearOrder α] :
    ∀ (l : List α) (i : Nat) (m : α), idxminAux l = some (i, m) →
      ∃ hi : i < l.length, l.get ⟨i, hi⟩ = m ∧
        (∀ j (hj : j < l.length), m ≤ l.get ⟨j, hj⟩) ∧
        (∀ j (hj : j < l.length), j < i → m < l.get ⟨j, hj⟩)
  | [], i, m, h => by simp [idxminAux] at h
  | x :: xs, i, m, h => by
    rw [idxminAux] at h
    cases hxs : idxminAux xs with
    | none =>
      rw [hxs] at h
      have hnil : xs = [] := (idxminAux_eq_none xs).mp hxs
      subst hnil
      have h2 : some (0, x) = some (i, m) := h
      obtain ⟨hi, hm⟩ : 0 = i ∧ x = m := by simpa using h2
      subst hi; subst hm
      refine ⟨by simp, by simp, ?_, ?_⟩
      · intro j hj
        have hj0 : j = 0 := by simp at hj; omega
        subst hj0
        simp
      · intro j hj hji
        omega
    | some p =>
      obtain ⟨j0, m0⟩ := p
      rw [hxs] at h
      have h2 : (if x ≤ m0 then some (0, x) else some (j0 + 1, m0)) =
          some (i, m) := h
      obtain ⟨hj0, hget0, hmin0, hfirst0⟩ := idxminAux_spec xs j0 m0 hxs
      by_cases hx : x ≤ m0
      · rw [if_pos hx] at h2
        obtain ⟨hi, hm⟩ : 0 = i ∧ x = m := by simpa using h2
        subst hi; subst hm
        refine ⟨by simp, by simp, ?_, ?_⟩
        · intro j hj
          cases j with
          | zero => simp
          | succ k =>
            have hk : k < xs.length := by simp at hj; omega
            have hgk : (x :: xs).get ⟨k + 1, hj⟩ = xs.get ⟨k, hk⟩ := by simp
            rw [hgk]
            exact le_trans hx (hmin0 k hk)
        · intro j hj hji
          omega
      · rw [if_neg hx] at h2
        obtain ⟨hi, hm⟩ : j0 + 1 = i ∧ m0 = m := by simpa using h2
        subst hi; subst hm
        have hi2 : j0 + 1 < (x :: xs).length := by simp; omega
        refine ⟨hi2, ?_, ?_, ?_⟩
        · simpa using hget0
        · intro j hj
          cases j with
          | zero => simpa using le_of_lt (lt_of_not_le hx)
          | succ k =>
            have hk : k < xs.length := by simp at hj; omega
            have hgk : (x :: xs).get ⟨k + 1, hj⟩ = xs.get ⟨k, hk⟩ := by simp
            rw [hgk]
            exact hmin0 k hk
        · intro j hj hji
          cases j with
          | zero => simpa using lt_of_not_le hx
          | succ k =>
            have hk : k < xs.length := by simp at hj; omega
            have hgk : (x :: xs).get ⟨k + 1, hj⟩ = xs.get ⟨k, hk⟩ := by simp
            rw [hgk]
            exact hfirst0 k hk (by omega)

theorem idxmin_spec {α : Type} [LinearOrder α] (l : List α) (i : Nat)
    (h : idxmin l = some i) :
    ∃ hi : i < l.length,
      (∀ j (hj : j < l.length), l.get ⟨i, hi⟩ ≤ l.get ⟨j, hj⟩) ∧
      (∀ j (hj : j < l.length), j < i → l.get ⟨i, hi⟩ < l.get ⟨j, hj⟩) := by
  unfold idxmin at h
  cases haux : idxminAux l with
  | none => rw [haux] at h; simp at h
  | some p =>
    obtain ⟨i0, m⟩ := p
    rw [haux] at h
    have hi0 : i0 = i := by simpa using h
    subst hi0
    obtain ⟨hi, hget, hmin, hfirst⟩ := idxminAux_spec l i0 m haux
    refine ⟨hi, ?_, ?_⟩
    · intro j hj
      rw [hget]
      exact hmin j hj
    · intro j hj hji
      rw [hget]
      exact hfirst j hj hji

theorem idxmin_isSome {α : Type} [LinearOrder α] (l : List α) (h : l ≠ []) :
    ∃ i, idxmin l = some i := by
  cases haux : idxminAux l with
  | none => exact absurd ((idxminAux_eq_none l).mp haux) h
  | some p =>
    refine ⟨p.1, ?_⟩
    unfold idxmin
    rw [haux]
    simp

theorem processTable_mem {t : RawTable} {rs : List Row} {r : Row}
    (h : processTable t = some rs) (hr : r ∈ rs) :
    isNum (cell r "Lat") = true ∧ isNum (cell r "Lon") = true := by
  unfold processTable at h
  by_cases hc : "Lat" ∈ t.cols ∧ "Lon" ∈ t.cols
  · rw [if_pos hc] at h
    have hrs := Option.some.inj h
    subst hrs
    have hp := (List.mem_filter.mp hr).2
    have hp2 := (Bool.and_eq_true _ _).mp hp
    exact ⟨hp2.1, hp2.2⟩
  · rw [if_neg hc] at h
    simp at h

theorem processTable_rows {t : RawTable} {rs : List Row} {r : Row}
    (h : processTable t = some rs) (hr : r ∈ rs) :
    ∃ r0 ∈ t.rows, r = coerceCol "Lon" (coerceCol "Lat" r0) := by
  unfold processTable at h
  by_cases hc : "Lat" ∈ t.cols ∧ "Lon" ∈ t.cols
  · rw [if_pos hc] at h
    have hrs := Option.some.inj h
    subst hrs
    have hm := (List.mem_filter.mp hr).1
    obtain ⟨r0, hr0, heq⟩ := List.mem_map.mp hm
    exact ⟨r0, hr0, heq.symm⟩
  · rw [if_neg hc] at h
    simp at h

theorem ingestFrames_mem :
    ∀ (srcs : List Source) (f : List Row), f ∈ (ingestFrames srcs).1 →
      ∃ name t, (name, Except.ok t) ∈ srcs ∧ processTable t = some f
  | [], f, h => by simp [ingestFrames] at h
  | (name, src) :: rest, f, h => by
    cases src with
    | error e =>
      have h2 : f ∈ (ingestFrames rest).1 := h
      obtain ⟨n, t, hmem, hpt⟩ := ingestFrames_mem rest f h2
      exact ⟨n, t, by simp [hmem], hpt⟩
    | ok t =>
      cases hpt : processTable t with
      | none =>
        have h2 : f ∈ (ingestFrames rest).1 := by
          have hstep : ingestFrames ((name, Except.ok t) :: rest) =
              ((ingestFrames rest).1,
               Warning.sourceFailed name "KeyError: missing coordinate column" ::
                 (ingestFrames rest).2) := by
            simp [ingestFrames, hpt]
          rw [hstep] at h
          exact h
        obtain ⟨n, t2, hmem, hpt2⟩ := ingestFrames_mem rest f h2
        exact ⟨n, t2, by simp [hmem], hpt2⟩
      | some rs =>
        have hstep : ingestFrames ((name, Except.ok t) :: rest) =
            (rs :: (ingestFrames rest).1, (ingestFrames rest).2) := by
          simp [ingestFrames, hpt]
        rw [hstep] at h
        rcases List.mem_cons.mp h with hf | hf
        · exact ⟨name, t, by simp, by rw [hpt, hf]⟩
        · obtain ⟨n, t2, hmem, hpt2⟩ := ingestFrames_mem rest f hf
          exact ⟨n, t2, by simp [hmem], hpt2⟩

theorem masterRows_coords_numeric {srcs : List Source} {r : Row}
    (h : r ∈ masterRows srcs) :
    isNum (cell r "Lat") = true ∧ isNum (cell r "Lon") = true := by
  unfold masterRows at h
  obtain ⟨f, hf, hr⟩ := List.mem_flatten.mp h
  obtain ⟨name, t, hmem, hpt⟩ := ingestFrames_mem srcs f hf
  exact processTable_mem hpt hr

theorem ingestFrames_append :
    ∀ (a b : List Source),
      ingestFrames (a ++ b) =
        ((ingestFrames a).1 ++ (ingestFrames b).1,
         (ingestFrames a).2 ++ (ingestFrames b).2)
  | [], b => by simp [ingestFrames]
  | (name, src) :: rest, b => by
    have ih := ingestFrames_append rest b
    cases src with
    | error e => simp [ingestFrames, ih]
    | ok t =>
      cases hpt : processTable t with
      | none => simp [ingestFrames, hpt, ih]
      | some rs => simp [ingestFrames, hpt, ih]

theorem coerceCol_keys (c : String) (r : Row) :
    (coerceCol c r).map Prod.fst = r.map Prod.fst := by
  unfold coerceCol
  rw [List.map_map]
  apply List.map_congr_left
  intro p hp
  by_cases hc : p.1 = c <;> simp [hc]

theorem mem_coerceCol_of_ne (c : String) {r : Row} {p : String × RawValue}
    (hp : p ∈ r) (hne : p.1 ≠ c) : p ∈ coerceCol c r := by
  unfold coerceCol
  refine List.mem_map.mpr ⟨p, hp, ?_⟩
  rw [if_neg hne]

theorem radians_mem_Icc {lat : ℝ} (h1 : -90 ≤ lat) (h2 : lat ≤ 90) :
    radians lat ∈ Set.Icc (-(Real.pi / 2)) (Real.pi / 2) := by
  have hpi : 0 < Real.pi := Real.pi_pos
  constructor
  · unfold radians
    nlinarith [mul_nonneg (by linarith : (0:ℝ) ≤ lat + 90) hpi.le]
  · unfold radians
    nlinarith [mul_nonneg (by linarith : (0:ℝ) ≤ 90 - lat) hpi.le]

theorem hav_a_mem_unit (lat1 lon1 lat2 lon2 : ℝ)
    (h1 : -90 ≤ lat1) (h2 : lat1 ≤ 90) (h3 : -90 ≤ lat2) (h4 : lat2 ≤ 90) :
    0 ≤ hav_a lat1 lon1 lat2 lon2 ∧ hav_a lat1 lon1 lat2 lon2 ≤ 1 := by
  have hc1 : 0 ≤ Real.cos (radians lat1) :=
    Real.cos_nonneg_of_mem_Icc (radians_mem_Icc h1 h2)
  have hc2 : 0 ≤ Real.cos (radians lat2) :=
    Real.cos_nonneg_of_mem_Icc (radians_mem_Icc h3 h4)
  constructor
  · unfold hav_a
    exact add_nonneg (sq_nonneg _)
      (mul_nonneg (mul_nonneg hc1 hc2) (sq_nonneg _))
  · have hkey : ∀ u : ℝ, Real.sin (u / 2) ^ 2 = 1 / 2 - Real.cos u / 2 := by
      intro u
      rw [Real.sin_sq_eq_half_sub]
      rw [show 2 * (u / 2) = u from by ring]
    unfold hav_a
    rw [hkey, hkey]
    have hsub : radians (lat2 - lat1) = radians lat2 - radians lat1 := by
      unfold radians; ring
    rw [hsub, Real.cos_sub]
    set s1 := Real.sin (radians lat1) with hs1
    set s2 := Real.sin (radians lat2) with hs2
    set c1 := Real.cos (radians lat1) with hc1d
    set c2 := Real.cos (radians lat2) with hc2d
    set t := Real.cos (radians (lon2 - lon1)) with htd
    have hp1 : s1 ^ 2 + c1 ^ 2 = 1 := Real.sin_sq_add_cos_sq _
    have hp2 : s2 ^ 2 + c2 ^ 2 = 1 := Real.sin_sq_add_cos_sq _
    have ht : -1 ≤ t := Real.neg_one_le_cos _
    have hq1 : 0 ≤ (s1 + s2) ^ 2 := sq_nonneg _
    have hq2 : 0 ≤ (c1 - c2) ^ 2 := sq_nonneg _
    have hq3 : 0 ≤ c1 * c2 * (1 + t) :=
      mul_nonneg (mul_nonneg hc1 hc2) (by linarith)
    nlinarith [hq1, hq2, hq3, hp1, hp2]

theorem atan2_zero_one : atan2 0 1 = 0 := by
  unfold atan2
  rw [if_pos (by norm_num : (0:ℝ) < 1)]
  simp

theorem calculate_distance_of_hav_zero (lat1 lon1 lat2 lon2 : ℝ)
    (h : hav_a lat1 lon1 lat2 lon2 = 0) :
    calculate_distance lat1 lon1 lat2 lon2 = 0 := by
  unfold calculate_distance
  rw [h, Real.sqrt_zero, sub_zero, Real.sqrt_one, atan2_zero_one]
  ring

theorem hav_a_self (lat lon : ℝ) : hav_a lat lon lat lon = 0 := by
  unfold hav_a radians
  simp

theorem hav_a_pole : hav_a 90 0 90 50 = 0 := by
  unfold hav_a radians
  rw [show ((90:ℝ) - 90) * Real.pi / 180 = 0 from by ring]
  rw [show (90:ℝ) * Real.pi / 180 = Real.pi / 2 from by ring]
  simp [Real.cos_pi_div_two]

theorem runNearest_snd_of_idxmin {m : MasterFrame} {u v : ℝ} {i : Nat}
    (h : idxmin (m.rows.map (rowDist u v)) = some i) :
    (runNearest m u v).2 =
      some (m.rows.getD i [], (m.rows.map (rowDist u v)).getD i 0) := by
  simp only [runNearest]
  rw [h]

theorem get_csv_of_search_none {u : String} {fetch : String → String → NetResponse}
    (h : searchGithub u = none) :
    get_csv_files_from_github u fetch = ([], some UiError.invalidOriginReference) := by
  unfold get_csv_files_from_github
  rw [h]

theorem get_csv_of_search_some {u owner repo : String} {names : List String}
    {fetch : String → String → NetResponse}
    (h : searchGithub u = some (owner, repo))
    (hf : fetch owner repo = NetResponse.ok names) :
    get_csv_files_from_github u fetch = (names.filter endsWithCsv, none) := by
  unfold get_csv_files_from_github
  rw [h]
  simp only []
  rw [hf]

/-- C1 counterexample: the ingested index does contain a row whose
latitude is the out-of-range number 200 — ingestion never range-checks
the coerced coordinates, so the claim is false at this input. -/
theorem C1_counterexample :
    [("Lat", RawValue.num 200), ("Lon", RawValue.num 0)] ∈
      masterRows [("s.csv", Except.ok tableLat200)] ∧
    cell [("Lat", RawValue.num 200), ("Lon", RawValue.num 0)] "Lat" =
      RawValue.num 200 ∧
    (90 : ℚ) < 200 := by decide

theorem isNum_ne {v : RawValue} (h : isNum v = true) :
    (∀ s, v ≠ RawValue.str s) ∧ v ≠ RawValue.missing := by
  cases v <;> simp [isNum] at h ⊢

/-- C1 (amended): every source row whose latitude or longitude value
fails numeric coercion (non-numeric text or a missing value) is
excluded from the resulting index — in particular a row with
`Lat="not_a_number"` never appears among the records — but the coerced
values are not checked against the [-90, 90] / [-180, 180] domain, so a
row with `Lat=200` is retained. -/
theorem C1_theorem (srcs : List Source) (r : Row) (h : r ∈ masterRows srcs) :
    (∀ s : String, cell r "Lat" ≠ RawValue.str s ∧
      cell r "Lon" ≠ RawValue.str s) ∧
    cell r "Lat" ≠ RawValue.missing ∧ cell r "Lon" ≠ RawValue.missing := by
  obtain ⟨hlat, hlon⟩ := masterRows_coords_numeric h
  obtain ⟨hl1, hl2⟩ := isNum_ne hlat
  obtain ⟨ho1, ho2⟩ := isNum_ne hlon
  exact ⟨fun s => ⟨hl1 s, ho1 s⟩, hl2, ho2⟩

theorem C1_witness :
    ([("Lat", RawValue.num 35), ("Lon", RawValue.num 139),
      ("Line", RawValue.str "A")] ∈
        masterRows [("w.csv", Except.ok tableValid)]) ∧
    ((∀ s : String,
        cell [("Lat", RawValue.num 35), ("Lon", RawValue.num 139),
          ("Line", RawValue.str "A")] "Lat" ≠ RawValue.str s ∧
        cell [("Lat", RawValue.num 35), ("Lon", RawValue.num 139),
          ("Line", RawValue.str "A")] "Lon" ≠ RawValue.str s) ∧
      cell [("Lat", RawValue.num 35), ("Lon", RawValue.num 139),
        ("Line", RawValue.str "A")] "Lat" ≠ RawValue.missing ∧
      cell [("Lat", RawValue.num 35), ("Lon", RawValue.num 139),
        ("Line", RawValue.str "A")] "Lon" ≠ RawValue.missing) :=
  ⟨by decide, C1_theorem [("w.csv", Except.ok tableValid)] _ (by decide)⟩

/-- C10: every record in the index produced by ingestion has a
latitude and a longitude holding non-null numeric values — no record
with a missing or non-numeric coordinate ever reaches the query
engine. -/
theorem C10_theorem (srcs : List Source) (r : Row) (h : r ∈ masterRows srcs) :
    isNum (cell r "Lat") = true ∧ isNum (cell r "Lon") = true :=
  masterRows_coords_numeric h

theorem C10_witness :
    ([("Lat", RawValue.num 36), ("Lon", RawValue.num 140),
      ("Line", RawValue.str "B")] ∈
        masterRows [("w.csv", Except.ok tableValid)]) ∧
    (isNum (cell [("Lat", RawValue.num 36), ("Lon", RawValue.num 140),
       ("Line", RawValue.str "B")] "Lat") = true ∧
     isNum (cell [("Lat", RawValue.num 36), ("Lon", RawValue.num 140),
       ("Line", RawValue.str "B")] "Lon") = true) :=
  ⟨by decide, C10_theorem [("w.csv", Except.ok tableValid)] _ (by decide)⟩

/-- C2 (code bug): on an index built from zero valid rows the query
does not fail with a NoDataAvailable condition.  When every source
fails to read, the `if all_data_frames:` guard silently skips the query
(`noData`); but when a source parses and all its rows are dropped, the
empty frame passes the guard and `idxmin` is evaluated on an empty
distance array, raising an uncaught ValueError (`crashed`). -/
theorem C2_theorem :
    appQuery srcsEmptyFrame 35 139 = QueryOutcome.crashed ∧
    appQuery srcsAllFailed 35 139 = QueryOutcome.noData := by
  constructor <;> rfl

/-- C3: for coordinates within the valid latitude/longitude domain the
haversine intermediate `a` lies in [0, 1], so both `math.sqrt(a)` and
`math.sqrt(1 - a)` receive a non-negative argument and
`calculate_distance` never raises. -/
theorem C3_theorem (lat1 lon1 lat2 lon2 : ℝ)
    (h1 : -90 ≤ lat1) (h2 : lat1 ≤ 90) (h3 : -90 ≤ lat2) (h4 : lat2 ≤ 90)
    (_h5 : -180 ≤ lon1) (_h6 : lon1 ≤ 180)
    (_h7 : -180 ≤ lon2) (_h8 : lon2 ≤ 180) :
    0 ≤ hav_a lat1 lon1 lat2 lon2 ∧ 0 ≤ 1 - hav_a lat1 lon1 lat2 lon2 := by
  obtain ⟨ha, hb⟩ := hav_a_mem_unit lat1 lon1 lat2 lon2 h1 h2 h3 h4
  exact ⟨ha, by linarith⟩

theorem C3_witness :
    ((-90 : ℝ) ≤ 35 ∧ (35 : ℝ) ≤ 90 ∧ (-90 : ℝ) ≤ 36 ∧ (36 : ℝ) ≤ 90 ∧
     (-180 : ℝ) ≤ 139 ∧ (139 : ℝ) ≤ 180 ∧
     (-180 : ℝ) ≤ 140 ∧ (140 : ℝ) ≤ 180) ∧
    (0 ≤ hav_a 35 139 36 140 ∧ 0 ≤ 1 - hav_a 35 139 36 140) :=
  ⟨by norm_num,
   C3_theorem 35 139 36 140 (by norm_num) (by norm_num) (by norm_num)
     (by norm_num) (by norm_num) (by norm_num) (by norm_num) (by norm_num)⟩

/-- C4 counterexample: the nearest-point query is not free of side
effects on the index — running it stores the `distance_to_user` column
on the master table, so the table afterwards differs from the table
before. -/
theorem C4_counterexample : (runNearest frame0 35 139).1 ≠ frame0 := by
  intro h
  have hcol : some (frame0.rows.map (rowDist 35 139)) = (none : Option (List ℝ)) :=
    congrArg MasterFrame.distCol h
  simp at hcol

/-- C4 (amended): the query is a pure function of the index rows and
the observer position — it leaves every ingested row and column
unchanged and a repeated call on the updated table returns the
identical result and state — but it does mutate the master table by
storing the `distance_to_user` column on it. -/
theorem C4_theorem (m : MasterFrame) (u v : ℝ) :
    (runNearest m u v).1.rows = m.rows ∧
    (runNearest m u v).1.distCol = some (m.rows.map (rowDist u v)) ∧
    runNearest (runNearest m u v).1 u v = runNearest m u v :=
  ⟨rfl, rfl, rfl⟩

/-- C5 counterexample: ingestion does not tag surviving rows with the
name of the source they came from.  Two batches that differ only in the
source name ingest to identical results, and no cell of any ingested
record holds the source name, so provenance cannot be recovered from
the built index. -/
theorem C5_counterexample :
    ingestFrames [("a.csv", Except.ok tableValid)] =
      ingestFrames [("b.csv", Except.ok tableValid)] ∧
    "a.csv" ≠ "b.csv" ∧
    ∀ r ∈ masterRows [("a.csv", Except.ok tableValid)],
      ∀ p ∈ r, p.2 ≠ RawValue.str "a.csv" := by decide

/-- C5 (amended): every row that survives ingestion is appended to the
accumulated record sequence with its original columns retained (the
coordinate columns coerced to numbers, every other cell unchanged), but
it is not tagged with the name of its originating source. -/
theorem C5_theorem (name : String) (t : RawTable) (rs : List Row)
    (h : processTable t = some rs) :
    ingestFrames [(name, Except.ok t)] = ([rs], []) ∧
    ∀ r ∈ rs, ∃ r0 ∈ t.rows,
      r.map Prod.fst = r0.map Prod.fst ∧
      ∀ p ∈ r0, p.1 ≠ "Lat" → p.1 ≠ "Lon" → p ∈ r := by
  constructor
  · simp [ingestFrames, h]
  · intro r hr
    obtain ⟨r0, hr0, heq⟩ := processTable_rows h hr
    refine ⟨r0, hr0, ?_, ?_⟩
    · rw [heq, coerceCol_keys, coerceCol_keys]
    · intro p hp hpl hpo
      rw [heq]
      exact mem_coerceCol_of_ne _ (mem_coerceCol_of_ne _ hp hpl) hpo

theorem C5_witness :
    processTable tableValid = some tableValid.rows ∧
    (ingestFrames [("w.csv", Except.ok tableValid)] = ([tableValid.rows], []) ∧
     ∀ r ∈ tableValid.rows, ∃ r0 ∈ tableValid.rows,
       r.map Prod.fst = r0.map Prod.fst ∧
       ∀ p ∈ r0, p.1 ≠ "Lat" → p.1 ≠ "Lon" → p ∈ r) :=
  ⟨by decide, C5_theorem "w.csv" tableValid tableValid.rows (by decide)⟩

/-- C6: a malformed origin URL (one the repository regex does not
match) is reported with the distinct InvalidOriginReference error and
an empty list, while a well-formed, reachable origin containing no CSV
sources yields an empty list with no error — the two outcomes differ. -/
theorem C6_theorem (badUrl okUrl owner repo : String) (names : List String)
    (fetch : String → String → NetResponse)
    (h1 : searchGithub badUrl = none)
    (h2 : searchGithub okUrl = some (owner, repo))
    (h3 : fetch owner repo = NetResponse.ok names)
    (h4 : ∀ n ∈ names, endsWithCsv n = false) :
    get_csv_files_from_github badUrl fetch =
      ([], some UiError.invalidOriginReference) ∧
    get_csv_files_from_github okUrl fetch = ([], none) ∧
    (get_csv_files_from_github badUrl fetch).2 ≠
      (get_csv_files_from_github okUrl fetch).2 := by
  have e1 := @get_csv_of_search_none badUrl fetch h1
  have e2 : get_csv_files_from_github okUrl fetch = ([], none) := by
    rw [get_csv_of_search_some h2 h3]
    have : names.filter endsWithCsv = [] := by
      rw [List.filter_eq_nil_iff]
      intro n hn
      simp [h4 n hn]
    rw [this]
  refine ⟨e1, e2, ?_⟩
  rw [e1, e2]
  simp

theorem C6_witness :
    (searchGithub "https://example.com/owner/repo" = none ∧
     searchGithub "https://github.com/yuutaka69/kirotei_web" =
       some ("yuutaka69", "kirotei_web") ∧
     (∀ n ∈ ["README.md"], endsWithCsv n = false)) ∧
    (get_csv_files_from_github "https://example.com/owner/repo"
        (fun _ _ => NetResponse.ok ["README.md"]) =
      ([], some UiError.invalidOriginReference) ∧
     get_csv_files_from_github "https://github.com/yuutaka69/kirotei_web"
        (fun _ _ => NetResponse.ok ["README.md"]) = ([], none) ∧
     (get_csv_files_from_github "https://example.com/owner/repo"
        (fun _ _ => NetResponse.ok ["README.md"])).2 ≠
       (get_csv_files_from_github "https://github.com/yuutaka69/kirotei_web"
        (fun _ _ => NetResponse.ok ["README.md"])).2) :=
  ⟨⟨by decide, by decide, by decide⟩,
   C6_theorem "https://example.com/owner/repo"
     "https://github.com/yuutaka69/kirotei_web" "yuutaka69" "kirotei_web"
     ["README.md"] (fun _ _ => NetResponse.ok ["README.md"])
     (by decide) (by decide) rfl (by decide)⟩

/-- C7: on a non-empty index the query returns the record whose
distance to the observer is minimal, and among equidistant minima the
one at the lowest insertion-order position; repeated evaluation with
identical arguments is (definitionally) identical. -/
theorem C7_theorem (m : MasterFrame) (u v : ℝ) (h : m.rows ≠ []) :
    ∃ i, ∃ him : i < m.rows.length,
      (runNearest m u v).2 = some (m.rows[i], rowDist u v m.rows[i]) ∧
      (∀ j (hj : j < m.rows.length),
        rowDist u v m.rows[i] ≤ rowDist u v m.rows[j]) ∧
      (∀ j (hj : j < m.rows.length),
        rowDist u v m.rows[j] = rowDist u v m.rows[i] → i ≤ j) ∧
      runNearest m u v = runNearest m u v := by
  have hd : m.rows.map (rowDist u v) ≠ [] := by
    simpa using h
  obtain ⟨i, hidx⟩ := idxmin_isSome _ hd
  obtain ⟨hi, hmin, hfirst⟩ := idxmin_spec _ i hidx
  have him : i < m.rows.length := by simpa using hi
  have hgi : (m.rows.map (rowDist u v)).get ⟨i, hi⟩ = rowDist u v m.rows[i] := by
    rw [List.get_eq_getElem, List.getElem_map]
  refine ⟨i, him, ?_, ?_, ?_, rfl⟩
  · rw [runNearest_snd_of_idxmin hidx]
    have e1 : m.rows.getD i [] = m.rows[i] := List.getD_eq_getElem _ _ him
    have e2 : (m.rows.map (rowDist u v)).getD i 0 = rowDist u v m.rows[i] := by
      rw [List.getD_eq_getElem _ _ hi, List.getElem_map]
    rw [e1, e2]
  · intro j hj
    have hj2 : j < (m.rows.map (rowDist u v)).length := by simpa using hj
    have hle := hmin j hj2
    rw [hgi] at hle
    rw [List.get_eq_getElem, List.getElem_map] at hle
    exact hle
  · intro j hj heq
    by_contra hij
    have hji : j < i := by omega
    have hj2 : j < (m.rows.map (rowDist u v)).length := by simpa using hj
    have hlt := hfirst j hj2 hji
    rw [hgi] at hlt
    rw [List.get_eq_getElem, List.getElem_map] at hlt
    rw [heq] at hlt
    exact lt_irrefl _ hlt

theorem C7_witness :
    frame0.rows ≠ [] ∧
    (∃ i, ∃ him : i < frame0.rows.length,
      (runNearest frame0 35 139).2 =
        some (frame0.rows[i], rowDist 35 139 frame0.rows[i]) ∧
      (∀ j (hj : j < frame0.rows.length),
        rowDist 35 139 frame0.rows[i] ≤ rowDist 35 139 frame0.rows[j]) ∧
      (∀ j (hj : j < frame0.rows.length),
        rowDist 35 139 frame0.rows[j] = rowDist 35 139 frame0.rows[i] →
          i ≤ j) ∧
      runNearest frame0 35 139 = runNearest frame0 35 139) :=
  ⟨by decide, C7_theorem frame0 35 139 (by decide)⟩

/-- C8: a source that cannot be read contributes zero records and
exactly one warning, and the frames, master rows, and warnings of every
other source are the same as if the failing source were absent. -/
theorem C8_theorem (pre post : List Source) (name e : String) :
    (ingestFrames (pre ++ (name, Except.error e) :: post)).1 =
      (ingestFrames (pre ++ post)).1 ∧
    (ingestFrames (pre ++ (name, Except.error e) :: post)).2 =
      (ingestFrames pre).2 ++
        Warning.sourceFailed name e :: (ingestFrames post).2 ∧
    masterRows (pre ++ (name, Except.error e) :: post) =
      masterRows (pre ++ post) := by
  have h1 := ingestFrames_append pre ((name, Except.error e) :: post)
  have h2 := ingestFrames_append pre post
  have hstep : ingestFrames ((name, Except.error e) :: post) =
      ((ingestFrames post).1,
       Warning.sourceFailed name e :: (ingestFrames post).2) := by
    simp [ingestFrames]
  refine ⟨?_, ?_, ?_⟩
  · rw [h1, h2, hstep]
  · rw [h1, hstep]
  · unfold masterRows
    rw [h1, h2, hstep]

/-- C9 counterexample: the distance is zero for two distinct coordinate
pairs — both at latitude 90 (the pole), where the longitudes differ —
so zero does not hold only for identical inputs. -/
theorem C9_counterexample :
    calculate_distance 90 0 90 50 = 0 ∧
    ((90 : ℝ), (0 : ℝ)) ≠ ((90 : ℝ), (50 : ℝ)) := by
  constructor
  · exact calculate_distance_of_hav_zero 90 0 90 50 hav_a_pole
  · intro h
    have h2 : (0 : ℝ) = 50 := congrArg Prod.snd h
    norm_num at h2

/-- C9 (amended): `calculate_distance(A, A) = 0` holds for every pair
of input coordinates, but the converse fails — the distance is also
zero for distinct coordinate pairs that denote the same physical point,
such as two points at a pole with different longitudes. -/
theorem C9_theorem (lat lon : ℝ) : calculate_distance lat lon lat lon = 0 :=
  calculate_distance_of_hav_zero lat lon lat lon (hav_a_self lat lon)
